import Mathlib

/-!
Verification of the multi-stage retrieval pipeline of the
voice-to-voice agentic RAG system: a shallow embedding of
`src/mcp_rag_server.py` (metadata filtering), `src/comparison_table.py`
(product-URL lookup with its module cache), `src/retriever.py`
(the reconciliation engine), `src/router.py`, `src/planner.py`,
`src/answerer.py` and `src/graph.py` (the pipeline state machine),
together with theorems settling the specification's claims.

Python dictionaries holding JSON-ish records are embedded as structures
whose `Option String` fields model key presence (`none` = key absent or
value `None`); Python truthiness of such a field is `strTruthy`.
External collaborators (the MCP search servers, the OpenAI calls, the
CSV file) are inputs of the embedded functions: an `Option` response
where `none` is the branch in which the call raised and the source's
`except` handler ran.
-/

namespace VRag

/-- Python truthiness of an optional string field: `None`, a missing key
and `""` are falsy, any other string is truthy. -/
def strTruthy : Option String → Bool
  | none => false
  | some s => s ≠ ""

/-- Python `d.get(key, "")`: the string value of an optional field, `""` when the
key is absent or `None`. -/
def strOf (o : Option String) : String := o.getD ""

/-- Python `a or b` on two optional string fields, as used in
`result.get("uniq_id", "") or result.get("doc_id", "")`. -/
def pyOr (a : Option String) (b : String) : String :=
  if strTruthy a then strOf a else b

/-- Tests whether `needle` is a prefix of `hay` (on character lists). -/
def isPrefixB : List Char → List Char → Bool
  | [], _ => true
  | _ :: _, [] => false
  | a :: as, b :: bs => a = b && isPrefixB as bs

/-- Tests whether `needle` occurs as a contiguous sublist of `hay`: Python's `in` on
strings. -/
def containsSub (needle : List Char) : List Char → Bool
  | [] => isPrefixB needle []
  | b :: bs => isPrefixB needle (b :: bs) || containsSub needle bs

/-- Case-insensitive substring test, Python's `needle.lower() in hay.lower()`. -/
def lcontains (hay needle : String) : Bool :=
  containsSub (needle.data.map Char.toLower) (hay.data.map Char.toLower)

/-- Assoc-list lookup, first match; dictionaries built with `dictInsert`
keep keys unique, so this is Python `dict.get`. -/
def lookup1 (t : List (String × String)) (k : String) : Option String :=
  match t with
  | [] => none
  | (k', v) :: rest => if k' = k then some v else lookup1 rest k

/-- Python `d[k] = v` on a dictionary represented as an assoc list: overwrite the
existing entry in place, or append a new one. -/
def dictInsert (t : List (String × String)) (k v : String) : List (String × String) :=
  match t with
  | [] => [(k, v)]
  | (k', v') :: rest => if k' = k then (k, v) :: rest else (k', v') :: dictInsert rest k v

/-! ## Catalog metadata filtering (`src/mcp_rag_server.py`, `apply_metadata_filters`) -/

/-- The value Python's `float()` yields: a finite number, `nan`, or a signed
infinity.  Embedded explicitly because IEEE comparisons with `nan` are never
true while infinities compare as expected. -/
inductive PyFloat
  | fin (q : ℚ)
  | nan
  | inf
  | ninf
deriving Repr, DecidableEq

/-- Python `price > bound` on a parsed price. -/
def PyFloat.gtB : PyFloat → ℚ → Bool
  | .fin q, b => q > b
  | .nan, _ => false
  | .inf, _ => true
  | .ninf, _ => false

/-- Python `price < bound` on a parsed price. -/
def PyFloat.ltB : PyFloat → ℚ → Bool
  | .fin q, b => q < b
  | .nan, _ => false
  | .inf, _ => false
  | .ninf, _ => true

/-- The raw `price` metadata field, by how
`float(price_str) if price_str not in ("", None) else None` behaves on it:
absent/empty/`None`, a string `float()` rejects (the `except` branch), or a
value `float()` accepts. -/
inductive PriceField
  | emptyOrNone
  | unparseable (s : String)
  | parses (v : PyFloat)
deriving Repr, DecidableEq

/-- The `price` variable after the source's `try`/`except`: `None` unless the
raw field was present and `float()` accepted it. -/
def parsedPrice : PriceField → Option PyFloat
  | .emptyOrNone => none
  | .unparseable _ => none
  | .parses v => some v

/-- The metadata of one ChromaDB candidate, restricted to the keys
`apply_metadata_filters` reads. -/
structure CandMeta where
  uniq_id : Option String := none
  doc_id : Option String := none
  title : Option String := none
  brand : Option String := none
  category : Option String := none
  price : PriceField := .emptyOrNone
deriving Repr, DecidableEq

/-- One entry of the zipped `documents`/`metadatas`/`distances` lists. -/
structure Candidate where
  doc : String := ""
  meta : CandMeta := {}
  dist : PyFloat := .fin 0
deriving Repr, DecidableEq

/-- The filter arguments of `apply_metadata_filters` (`None` = not given). -/
structure Filters where
  brand : Option String := none
  category : Option String := none
  max_price : Option ℚ := none
  min_price : Option ℚ := none
  must_contain : Option String := none
deriving Repr, DecidableEq

/-- The brand test: the filter string appears (case-insensitively) in the
structured `brand` field, in the `title`, or in the raw document text. -/
def brandFound (b : String) (c : Candidate) : Bool :=
  lcontains (strOf c.meta.brand) b || lcontains (strOf c.meta.title) b ||
    lcontains (if c.doc ≠ "" then c.doc else "") b

/-- The `if brand:` guard plus the brand test (a `None` or empty filter passes
everything). -/
def passBrand (fb : Option String) (c : Candidate) : Bool :=
  match fb with
  | none => true
  | some b => if b = "" then true else brandFound b c

/-- The guard `if category and category.lower() not in str(meta.get("category", "")).lower()`. -/
def passCategory (fc : Option String) (c : Candidate) : Bool :=
  match fc with
  | none => true
  | some g => if g = "" then true else lcontains (strOf c.meta.category) g

/-- The two price `continue`s: a record is price-filtered iff its parsed
price is not `None` and a given bound's comparison is true. -/
def priceViolates (maxP minP : Option ℚ) (c : Candidate) : Bool :=
  match parsedPrice c.meta.price with
  | none => false
  | some v =>
      (match maxP with | some m => v.gtB m | none => false) ||
      (match minP with | some m => v.ltB m | none => false)

/-- The guard `if must_contain and must_contain.lower() not in doc.lower()`. -/
def passMust (fm : Option String) (c : Candidate) : Bool :=
  match fm with
  | none => true
  | some m => if m = "" then true else lcontains c.doc m

/-- The filtering loop of `apply_metadata_filters`: each candidate runs the
brand, category, price and must-contain guards in order, a failing guard
`continue`s, survivors are appended. -/
def applyMetadataFilters (f : Filters) : List Candidate → List Candidate
  | [] => []
  | c :: rest =>
    if ¬ passBrand f.brand c then applyMetadataFilters f rest
    else if ¬ passCategory f.category c then applyMetadataFilters f rest
    else if priceViolates f.max_price f.min_price c then applyMetadataFilters f rest
    else if ¬ passMust f.must_contain c then applyMetadataFilters f rest
    else c :: applyMetadataFilters f rest

/-- The `filtered_ids` companion list: `meta.get("uniq_id", "") or
meta.get("doc_id", "")` for each surviving candidate. -/
def filteredIds (f : Filters) (l : List Candidate) : List String :=
  (applyMetadataFilters f l).map (fun c => pyOr c.meta.uniq_id (strOf c.meta.doc_id))

theorem applyMetadataFilters_eq_filter (f : Filters) (l : List Candidate) :
    applyMetadataFilters f l =
      l.filter (fun c => passBrand f.brand c && passCategory f.category c &&
        !priceViolates f.max_price f.min_price c && passMust f.must_contain c) := by
  induction l with
  | nil => rfl
  | cons c rest ih =>
    simp only [applyMetadataFilters, List.filter]
    by_cases hb : passBrand f.brand c <;>
      by_cases hc : passCategory f.category c <;>
        by_cases hp : priceViolates f.max_price f.min_price c <;>
          by_cases hm : passMust f.must_contain c <;>
            simp [hb, hc, hp, hm, ih]

/-! ## Product-URL lookup (`src/comparison_table.py`) -/

/-- One row of the catalog CSV, restricted to the two columns
`_load_product_url_lookup` reads (already passed through `str(...)`). -/
structure CsvRow where
  uniq_id : String := ""
  product_url : String := ""
deriving Repr, DecidableEq

/-- The loop body of `_load_product_url_lookup`: strip both columns, keep the
pair when the id is non-empty and the url is non-empty, not the string
`"nan"` and starts with `"http"`; assignment overwrites, so a later row wins
for a duplicate `uniq_id`. -/
def loadProductUrlLookup (rows : List CsvRow) : List (String × String) :=
  rows.foldl (fun t r =>
    let u := r.uniq_id.trim
    let p := r.product_url.trim
    if u ≠ "" && p ≠ "" && p ≠ "nan" && p.startsWith "http" then dictInsert t u p else t) []

/-- Function `get_product_url` against an already-loaded lookup table: early `None` on
a falsy or `"N/A"` id, else `lookup.get(str(uniq_id).strip())`. -/
def get_product_url (table : List (String × String)) (uniq_id : String) : Option String :=
  if uniq_id = "" || uniq_id = "N/A" then none
  else lookup1 table uniq_id.trim

/-- The module-wide `_product_url_lookup` cache: `none` before the first
load, `some table` afterwards. -/
def UrlCache := Option (List (String × String))
deriving instance Repr, DecidableEq for UrlCache

/-- The stateful `get_product_url`: the early guard returns before touching
the cache; otherwise `_load_product_url_lookup` returns the cached table, or
loads it from the CSV rows and caches it. -/
def getProductUrlSt (rows : List CsvRow) (uniq_id : String) (cache : UrlCache) :
    Option String × UrlCache :=
  if uniq_id = "" || uniq_id = "N/A" then (none, cache)
  else
    let t := match cache with
      | some t => t
      | none => loadProductUrlLookup rows
    (lookup1 t uniq_id.trim, some t)

/-- The reachable cache states: empty, or holding exactly the table loaded
from the CSV rows. -/
def CacheInv (rows : List CsvRow) (c : UrlCache) : Prop :=
  c = none ∨ c = some (loadProductUrlLookup rows)

theorem getProductUrlSt_fst (rows : List CsvRow) (uniq_id : String) (c : UrlCache)
    (h : CacheInv rows c) :
    (getProductUrlSt rows uniq_id c).1 = get_product_url (loadProductUrlLookup rows) uniq_id := by
  rcases h with h | h <;> subst h <;>
    by_cases hg : (uniq_id = "" || uniq_id = "N/A") = true <;>
      simp_all [getProductUrlSt, get_product_url]

theorem getProductUrlSt_inv (rows : List CsvRow) (uniq_id : String) (c : UrlCache)
    (h : CacheInv rows c) :
    CacheInv rows (getProductUrlSt rows uniq_id c).2 := by
  rcases h with h | h <;> subst h <;>
    by_cases hg : (uniq_id = "" || uniq_id = "N/A") = true <;>
      simp_all [getProductUrlSt, CacheInv]

/-! ## Records and plans (`src/retriever.py` data model) -/

/-- A product record as the retriever handles it: a JSON dict whose relevant
keys are embedded as optional fields (`none` = key absent), with `rest`
standing for any remaining payload keys, which every code path copies
untouched. -/
structure Record where
  uniq_id : Option String := none
  doc_id : Option String := none
  title : Option String := none
  brand : Option String := none
  category : Option String := none
  price : Option String := none
  url : Option String := none
  source : Option String := none
  rest : List (String × String) := []
deriving Repr, DecidableEq

/-- A parsed response of `call_rag_search` / `call_web_search`: the dict with
its `query` (default `""`) and `results` list (default `[]`, also covering an
`{"error": ...}` dict with no `results` key). -/
structure FetchResp where
  query : String := ""
  results : List Record := []
deriving Repr, DecidableEq

/-- The parsed JSON the reconciliation LLM call returns. -/
structure ReconcileOut where
  reconciled_results : List Record := []
  conflicts : List String := []
  recommendations : List String := []
deriving Repr, DecidableEq

/-- The `search_params` dict of a plan (`none` = key absent or `None`). -/
structure SearchParams where
  query : Option String := none
  brand : Option String := none
  category : Option String := none
  max_price : Option ℚ := none
  min_price : Option ℚ := none
  must_contain : Option String := none
  n_results : Option Nat := none
  rerank : Option Bool := none
deriving Repr, DecidableEq

/-- A retrieval plan as `retriever_node` reads it, with the source's
`plan.get(...)` defaults. -/
structure Plan where
  sources : List String := ["private"]
  fields_to_retrieve : List String := []
  comparison_criteria : List String := []
  search_params : SearchParams := {}
  use_web_for : String := ""
deriving Repr, DecidableEq

/-- The collaborator responses one invocation of `retriever_node` observes:
each is `none` when that call raised (the `except` branch returned `None`) —
for the reconciliation LLM, `none` means the `try` block failed. -/
structure RetEnv where
  ragResp : Option FetchResp := none
  webResp : Option FetchResp := none
  urlTable : List (String × String) := []
  reconcileResp : Option ReconcileOut := none
deriving Repr, DecidableEq

/-- The `retrieval_results` payload the retriever node returns. -/
structure RetrievalResults where
  query : String := ""
  results : List Record := []
  conflicts : List String := []
  recommendations : List String := []
deriving Repr, DecidableEq

/-- Which collaborators an invocation called. -/
structure RetTrace where
  ragCalled : Bool := false
  webCalled : Bool := false
  reconcileCalled : Bool := false
deriving Repr, DecidableEq

/-! ## Per-source validation and reconciliation cleanup (`retriever_node`) -/

/-- Attach a resolved product URL, keeping any existing `url` when the
lookup result is falsy (retriever.py lines 196-201). -/
def attachUrlKeep (pu : Option String) (r : Record) : Record :=
  if strTruthy pu then { r with url := pu } else r

/-- Attach a resolved product URL, deleting any existing `url` when the
lookup result is falsy (lines 352-356, 315-320, 395-399). -/
def attachUrlStrip (pu : Option String) (r : Record) : Record :=
  if strTruthy pu then { r with url := pu } else { r with url := none }

/-- The per-record stamping of a fresh catalog result (retriever.py lines
187-204): set `source`, promote a truthy `doc_id` into a falsy `uniq_id`,
then attach the URL resolved from the `uniq_id`; when the lookup finds
nothing an existing `url` is kept, and when the `uniq_id` is falsy any `url`
is deleted. -/
def stampLocal (table : List (String × String)) (r : Record) : Record :=
  let r := { r with source := some "local_corpus" }
  let r := if ¬ strTruthy r.uniq_id ∧ strTruthy r.doc_id then { r with uniq_id := r.doc_id } else r
  let uid := strOf r.uniq_id
  if uid ≠ "" then attachUrlKeep (get_product_url table uid) r
  else { r with url := none }

/-- The per-record stamping of a web result (lines 219-226, and identically
lines 361-367 and 405-412): set `source`, delete any `uniq_id` or `doc_id`. -/
def stampWeb (r : Record) : Record :=
  { r with source := some "web_search", uniq_id := none, doc_id := none }

/-- The copy-and-revalidate of a catalog record in the fallback concatenation
and in the no-reconciliation combine path (lines 346-358 and 389-401): set
`source`, attach the URL resolved from `uniq_id`, and — unlike `stampLocal` —
delete any `url` the lookup cannot vouch for. -/
def localCopyFix (table : List (String × String)) (r : Record) : Record :=
  let r := { r with source := some "local_corpus" }
  let uid := strOf r.uniq_id
  if uid ≠ "" then attachUrlStrip (get_product_url table uid) r
  else { r with url := none }

/-- Lookup in `{r.get("title", ""): r for r in l}`: the dict comprehension keeps the
last record with a given title, so lookup finds the last match. -/
def lookupByTitle (l : List Record) (t : String) : Option Record :=
  l.reverse.find? (fun r => strOf r.title = t)

/-- The per-record cleanup of the reconciliation LLM's output (lines
299-338).  A record classified as catalog-origin (explicit tag, or truthy
`uniq_id` with falsy `url`) is re-joined by title to the stamped catalog
records and its identity fields re-imposed — but an unmatched title leaves
the record as the LLM produced it.  Web-origin records symmetrically.  A
record matching neither classification is dropped (`none`). -/
def cleanupRecord (table : List (String × String)) (privL webL : List Record)
    (r : Record) : Option Record :=
  let source := strOf r.source
  if source = "local_corpus" ∨ (strTruthy r.uniq_id ∧ ¬ strTruthy r.url) then
    some (match lookupByTitle privL (strOf r.title) with
      | some pd =>
        let r := { r with
          uniq_id := some (pyOr r.uniq_id (pyOr pd.uniq_id (strOf pd.doc_id))),
          source := some "local_corpus" }
        let uid := strOf r.uniq_id
        let r :=
          if uid ≠ "" then attachUrlStrip (get_product_url table uid) r
          else { r with url := none }
        if r.doc_id.isNone then { r with doc_id := some (strOf pd.doc_id) } else r
      | none => r)
  else if source = "web_search" ∨ (strTruthy r.url ∧ ¬ strTruthy r.uniq_id) then
    some (match lookupByTitle webL (strOf r.title) with
      | some wd =>
        { r with url := some (pyOr r.url (strOf wd.url)),
                 source := some "web_search", uniq_id := none, doc_id := none }
      | none => r)
  else
    none

/-- The degenerate-merge fallback (lines 341-368): the first five validated
catalog records, then the first three validated web records, each re-copied
through the same per-record fixes as the combine path. -/
def fallbackConcat (table : List (String × String)) (privL webL : List Record) :
    List Record :=
  (privL.take 5).map (localCopyFix table) ++ (webL.take 3).map stampWeb

/-! ## The retriever node (`retriever_node`, lines 118-427) -/

/-- The reconciliation block plus the final combine (lines 231-417), after
the per-source fetches have been stamped.  Returns what collaborators were
still called together with the node's result; `Except.error` is the
uncaught `AttributeError` of the final `query` assignment when both
per-source responses are `None`. -/
def reconcileAndCombine (env : RetEnv) (stampedPriv stampedWeb : Option FetchResp) :
    Bool × Except String RetrievalResults :=
  let step : Option FetchResp × List String × List String × Bool :=
    match stampedPriv, stampedWeb with
    | some p, some w =>
      match env.reconcileResp with
      | none => (some p, [], [], true)
      | some rc =>
        let cleaned0 := rc.reconciled_results.filterMap
          (cleanupRecord env.urlTable p.results w.results)
        let cleaned :=
          if cleaned0.isEmpty then fallbackConcat env.urlTable p.results w.results
          else cleaned0
        (some { query := p.query, results := cleaned }, rc.conflicts, rc.recommendations, true)
    | _, _ => (stampedPriv, [], [], false)
  let reconciled := step.1
  let conflicts := step.2.1
  let recommendations := step.2.2.1
  let reconcileCalled := step.2.2.2
  match reconciled with
  | some f =>
    (reconcileCalled, .ok { query := f.query, results := f.results,
                            conflicts := conflicts, recommendations := recommendations })
  | none =>
    let privPart := match stampedPriv with
      | some p => if p.results.isEmpty then [] else p.results.map (localCopyFix env.urlTable)
      | none => []
    let webPart := match stampedWeb with
      | some w => if w.results.isEmpty then [] else w.results.map stampWeb
      | none => []
    match stampedPriv with
    | some p =>
      (reconcileCalled, .ok { query := p.query, results := privPart ++ webPart,
                              conflicts := conflicts, recommendations := recommendations })
    | none =>
      match stampedWeb with
      | some w =>
        (reconcileCalled, .ok { query := w.query, results := privPart ++ webPart,
                                conflicts := conflicts, recommendations := recommendations })
      | none =>
        (reconcileCalled,
         .error "AttributeError: NoneType object has no attribute get")

/-- The body of `retriever_node` for a resolved plan: fetch each requested source,
stamp its results in place, reconcile when both responses are present, and
combine.  The trace records which collaborators were invoked. -/
def retrieverNode (plan : Plan) (env : RetEnv) :
    RetTrace × Except String RetrievalResults :=
  let ragCalled := plan.sources.contains "private"
  let priv0 := if ragCalled then env.ragResp else none
  let stampedPriv := priv0.map
    (fun p => { p with results := p.results.map (stampLocal env.urlTable) })
  let webCalled := plan.sources.contains "live"
  let web0 := if webCalled then env.webResp else none
  let stampedWeb := web0.map (fun w => { w with results := w.results.map stampWeb })
  let (reconcileCalled, res) := reconcileAndCombine env stampedPriv stampedWeb
  ({ ragCalled := ragCalled, webCalled := webCalled, reconcileCalled := reconcileCalled }, res)

/-! ## Router and safety response (`src/router.py`) -/

/-- The `constraints` dict of an intent, restricted to the keys the planner
fallback and retriever fallback read. -/
structure Constraints where
  brand : Option String := none
  category : Option String := none
  max_price : Option ℚ := none
  min_price : Option ℚ := none
  must_contain : Option String := none
deriving Repr, DecidableEq

/-- The `router` entry of the pipeline state, always fully populated by
`router_node`. -/
structure RouterOut where
  route : String := "general"
  extracted_query : String := ""
  task : String := ""
  constraints : Constraints := {}
  safety_flags : List String := []
deriving Repr, DecidableEq

/-- The JSON dict the intent-classifier LLM call returns (each key may be
missing). -/
structure ClassifierOut where
  route : Option String := none
  extracted_query : Option String := none
  task : Option String := none
  constraints : Option Constraints := none
  safety_flags : Option (List String) := none
deriving Repr, DecidableEq

/-- The body of `router_node`: empty input short-circuits to the default intent; a
successful classification is read out with per-key defaults and the route
validated against the three legal values; a failed invocation
(`classifier = none`) falls back to the same safe default with the raw user
text as query. -/
def routerNode (classifier : Option ClassifierOut) (user_input : String) : RouterOut :=
  if user_input = "" then
    { route := "general", extracted_query := "", task := "", constraints := {}, safety_flags := [] }
  else
    match classifier with
    | some res =>
      let route0 := res.route.getD "general"
      let route := if route0 = "search" ∨ route0 = "general" ∨ route0 = "unsafe"
        then route0 else "general"
      { route := route,
        extracted_query := res.extracted_query.getD user_input,
        task := res.task.getD "",
        constraints := res.constraints.getD {},
        safety_flags := res.safety_flags.getD [] }
    | none =>
      { route := "general", extracted_query := user_input, task := "",
        constraints := {}, safety_flags := [] }

/-- The fixed crisis-resource message `safety_response_node` returns. -/
def safetyMessage : String :=
  "I'm sorry, but I cannot help with requests for products that could be used to cause harm to yourself or others.\n\nIf you're experiencing thoughts of self-harm or suicide, please know that help is available and you're not alone. Please reach out to:\n\n**988 Suicide & Crisis Lifeline**\n- Call or text: 988\n- Available 24/7, free and confidential\n- Website: https://988lifeline.org/\n\n**Crisis Text Line**\n- Text HOME to 741741\n- Available 24/7, free and confidential\n- Website: https://www.crisistextline.org/\n\n**National Suicide Prevention Lifeline**\n- Call: 1-800-273-8255\n- Available 24/7\n- Website: https://suicidepreventionlifeline.org/\n\nIf this is a medical emergency, please call 911 immediately.\n\nYour life has value, and there are people who want to help you through difficult times."

/-! ## Planner (`src/planner.py`) -/

/-- The JSON dict the planner LLM call returns. -/
structure PlanLLMOut where
  sources : Option (List String) := none
  fields_to_retrieve : Option (List String) := none
  comparison_criteria : Option (List String) := none
  search_params : Option SearchParams := none
  use_web_for : Option String := none
deriving Repr, DecidableEq

/-- The body of `planner_node`: normalize a successful LLM plan (default the query to
the extracted query when falsy, default `n_results`/`rerank` when the keys
are missing, append `uniq_id` to the fields when the private source is
requested), or fall back to the basic private-only plan built from the
router constraints. -/
def plannerNode (llm : Option PlanLLMOut) (router : RouterOut) : Plan :=
  match llm with
  | some plan =>
    let sp := plan.search_params.getD {}
    let sp := if ¬ strTruthy sp.query then { sp with query := some router.extracted_query } else sp
    let sp := if sp.n_results.isNone then { sp with n_results := some 5 } else sp
    let sp := if sp.rerank.isNone then { sp with rerank := some true } else sp
    let fields := plan.fields_to_retrieve.getD ["title", "brand", "price", "category"]
    let sources := plan.sources.getD ["private"]
    let fields := if sources.contains "private" ∧ ¬ fields.contains "uniq_id"
      then fields ++ ["uniq_id"] else fields
    { sources := sources, fields_to_retrieve := fields,
      comparison_criteria := plan.comparison_criteria.getD [],
      search_params := sp, use_web_for := plan.use_web_for.getD "" }
  | none =>
    { sources := ["private"],
      fields_to_retrieve := ["title", "brand", "price", "category", "uniq_id"],
      comparison_criteria := [],
      search_params := { query := some router.extracted_query,
                         brand := router.constraints.brand,
                         category := router.constraints.category,
                         max_price := router.constraints.max_price,
                         min_price := router.constraints.min_price,
                         must_contain := router.constraints.must_contain,
                         n_results := some 5, rerank := some true },
      use_web_for := "" }

/-! ## Answerer (`src/answerer.py`) -/

/-- The outcome of the two LLM calls inside `answerer_node`'s `try` block:
the synthesized answer (already `.strip()`ed), the parsed grounding verdict
(`none` when the `grounded` key is missing, defaulted to `true`), and the
grounding issues. -/
structure AnswerLLM where
  answer : String := ""
  grounded : Option Bool := none
  issues : List String := []
deriving Repr, DecidableEq

/-- The partial state update `answerer_node` returns: the two refusal
branches set only `final_answer`; the synthesis branches also set
citations, web URLs and the grounding verdict. -/
structure AnswererUpdate where
  final_answer : String := ""
  citations : Option (List String) := none
  web_urls : Option (List String) := none
  grounded : Option Bool := none
deriving Repr, DecidableEq

/-- The fixed no-results message. -/
def noProductsMsg : String :=
  "I couldn't find any suitable products matching your criteria. Try adjusting your filters or search terms."

/-- The safety-flags refusal message: the flags joined by `", "`. -/
def refusalMsg (flags : List String) : String :=
  "I cannot assist with this request due to safety concerns: " ++ String.intercalate ", " flags

/-- The body of `answerer_node`: empty results short-circuit to the no-products message;
otherwise non-empty safety flags short-circuit to the refusal; otherwise the
LLM answer is post-processed (grounding note, citation and URL collection,
URL appendix when the answer lacks any `http`), and an LLM failure falls
back to the single-record template built from the top result. -/
def answererNode (llm : Option AnswerLLM) (retriever : Option RetrievalResults)
    (router : Option RouterOut) : AnswererUpdate :=
  let results := (retriever.getD {}).results
  let flags := (router.getD {}).safety_flags
  match results with
  | [] => { final_answer := noProductsMsg }
  | top :: _ =>
    if flags ≠ [] then
      { final_answer := refusalMsg flags }
    else
      match llm with
      | some a =>
        let grounded := a.grounded.getD true
        let answer := a.answer
        let answer := if ¬ grounded then
            answer ++ "\n\n[Note: Some claims may not be fully verified. Issues: " ++
              String.intercalate ", " a.issues ++ "]"
          else answer
        let citations := results.filterMap (fun r =>
          if strTruthy r.uniq_id ∨ strTruthy r.doc_id
          then some (pyOr r.uniq_id (strOf r.doc_id)) else none)
        let web_urls := results.filterMap (fun r =>
          if strTruthy r.url then some (strOf r.url) else none)
        let answer := if ¬ web_urls.isEmpty ∧ ¬ lcontains answer "http" then
            answer ++ "\n\n**Web Sources:**\n" ++
              String.join ((web_urls.take 5).map (fun u => "- " ++ u ++ "\n"))
          else answer
        { final_answer := answer, citations := some citations,
          web_urls := some web_urls, grounded := some grounded }
      | none =>
        let answer := "My top recommendation is **" ++ (top.title.getD "Product") ++
          "**.\n- Brand: " ++ (top.brand.getD "N/A") ++
          "\n- Category: " ++ (top.category.getD "N/A") ++
          "\n- Price: $" ++ (top.price.getD "N/A")
        let uid := pyOr top.uniq_id (strOf top.doc_id)
        let answer := if uid ≠ "" then
            answer ++ "\n\nCitation (private DB uniq_id): " ++ uid else answer
        let answer := if strTruthy top.url then
            answer ++ "\n\nSource: " ++ strOf top.url else answer
        { final_answer := answer,
          citations := if uid ≠ "" then some [uid] else some [],
          web_urls := if strTruthy top.url then some [strOf top.url] else some [],
          grounded := some true }

/-! ## The pipeline state machine (`src/graph.py`) -/

/-- The nodes of the compiled LangGraph, plus the `END` marker. -/
inductive Node
  | router
  | safety_response
  | planner
  | retriever
  | answerer
  | endG
deriving Repr, DecidableEq

/-- The `GraphState` accumulator threaded through the pipeline. -/
structure GraphState where
  user_input : String := ""
  router : Option RouterOut := none
  planner : Option Plan := none
  retriever : Option RetrievalResults := none
  final_answer : Option String := none
  citations : Option (List String) := none
  web_urls : Option (List String) := none
  grounded : Option Bool := none
deriving Repr, DecidableEq

/-- The body of `should_route_to_safety`: a missing router output defaults to the safe
branch; only an `"unsafe"` route selects the safety response. -/
def shouldRouteToSafety (s : GraphState) : String :=
  match s.router with
  | none => "safe"
  | some r => if r.route = "unsafe" then "unsafe" else "safe"

/-- The retriever node's plan fallback (retriever.py lines 127-148): a
missing or empty planner plan is replaced by a basic private-only plan
built from the router output. -/
def resolvePlan (s : GraphState) : Plan :=
  match s.planner with
  | some plan => plan
  | none =>
    let router := s.router.getD {}
    { sources := ["private"],
      fields_to_retrieve := ["title", "brand", "price", "category"],
      comparison_criteria := [],
      search_params := { query := some router.extracted_query,
                         brand := router.constraints.brand,
                         category := router.constraints.category,
                         max_price := router.constraints.max_price,
                         min_price := router.constraints.min_price,
                         must_contain := router.constraints.must_contain,
                         n_results := some 5, rerank := some true },
      use_web_for := "" }

/-- All collaborator responses one pipeline run observes. -/
structure PipeEnv where
  classifier : Option ClassifierOut := none
  plannerLLM : Option PlanLLMOut := none
  ret : RetEnv := {}
  answerLLM : Option AnswerLLM := none
deriving Repr, DecidableEq

/-- Apply one node's update to the state; only the retriever can surface an
uncaught exception. -/
def applyNode (env : PipeEnv) : Node → GraphState → Except String GraphState
  | .router, s => .ok { s with router := some (routerNode env.classifier s.user_input) }
  | .safety_response, s => .ok { s with final_answer := some safetyMessage }
  | .planner, s => .ok { s with planner := some (plannerNode env.plannerLLM (s.router.getD {})) }
  | .retriever, s =>
    match (retrieverNode (resolvePlan s) env.ret).2 with
    | .ok r => .ok { s with retriever := some r }
    | .error e => .error e
  | .answerer, s =>
    let u := answererNode env.answerLLM s.retriever s.router
    .ok { s with final_answer := some u.final_answer,
                 citations := match u.citations with | some c => some c | none => s.citations,
                 web_urls := match u.web_urls with | some c => some c | none => s.web_urls,
                 grounded := match u.grounded with | some c => some c | none => s.grounded }
  | .endG, s => .ok s

/-- The edges of `build_graph`: the conditional edge out of the router reads
the state the router produced; every other node has one static successor. -/
def succNode : Node → GraphState → Node
  | .router, s => if shouldRouteToSafety s = "unsafe" then .safety_response else .planner
  | .safety_response, _ => .endG
  | .planner, _ => .retriever
  | .retriever, _ => .answerer
  | .answerer, _ => .endG
  | .endG, _ => .endG

/-- Execute the graph from a node with the given fuel, recording every node
that was invoked; an uncaught node exception aborts the run. -/
def runFrom (env : PipeEnv) : Nat → Node → GraphState → List Node × Except String GraphState
  | 0, _, s => ([], .ok s)
  | _ + 1, .endG, s => ([], .ok s)
  | fuel + 1, n, s =>
    match applyNode env n s with
    | .error e => ([n], .error e)
    | .ok s' =>
      let rest := runFrom env fuel (succNode n s') s'
      (n :: rest.1, rest.2)

/-- One full pipeline run on a user input: start at the router entry point
with fuel covering the longest path. -/
def runPipeline (env : PipeEnv) (user_input : String) :
    List Node × Except String GraphState :=
  runFrom env 10 .router { user_input := user_input }

/-! ## The stateful retriever: threading the module-wide URL cache

`retriever_node` calls `get_product_url`, whose module-wide
`_product_url_lookup` cache is the only mutable state shared between
invocations.  The `...St` functions below are the same code with that cache
threaded explicitly, so that invoking the retriever twice in one process can
be stated and compared. -/

/-- Thread a state through a map. -/
def mapSt (f : α → σ → β × σ) : List α → σ → List β × σ
  | [], st => ([], st)
  | a :: l, st =>
    let p := f a st
    let rest := mapSt f l p.2
    (p.1 :: rest.1, rest.2)

/-- Thread a state through a `filterMap`. -/
def filterMapSt (f : α → σ → Option β × σ) : List α → σ → List β × σ
  | [], st => ([], st)
  | a :: l, st =>
    let p := f a st
    let rest := filterMapSt f l p.2
    (match p.1 with | some b => b :: rest.1 | none => rest.1, rest.2)

/-- Function `stampLocal` with the stateful URL lookup. -/
def stampLocalSt (rows : List CsvRow) (r : Record) (c : UrlCache) : Record × UrlCache :=
  let r := { r with source := some "local_corpus" }
  let r := if ¬ strTruthy r.uniq_id ∧ strTruthy r.doc_id then { r with uniq_id := r.doc_id } else r
  let uid := strOf r.uniq_id
  if uid ≠ "" then
    let pc := getProductUrlSt rows uid c
    (attachUrlKeep pc.1 r, pc.2)
  else
    ({ r with url := none }, c)

/-- Function `localCopyFix` with the stateful URL lookup. -/
def localCopyFixSt (rows : List CsvRow) (r : Record) (c : UrlCache) : Record × UrlCache :=
  let r := { r with source := some "local_corpus" }
  let uid := strOf r.uniq_id
  if uid ≠ "" then
    let pc := getProductUrlSt rows uid c
    (attachUrlStrip pc.1 r, pc.2)
  else
    ({ r with url := none }, c)

/-- Function `cleanupRecord` with the stateful URL lookup. -/
def cleanupRecordSt (rows : List CsvRow) (privL webL : List Record)
    (r : Record) (c : UrlCache) : Option Record × UrlCache :=
  let source := strOf r.source
  if source = "local_corpus" ∨ (strTruthy r.uniq_id ∧ ¬ strTruthy r.url) then
    match lookupByTitle privL (strOf r.title) with
    | some pd =>
      let r := { r with
        uniq_id := some (pyOr r.uniq_id (pyOr pd.uniq_id (strOf pd.doc_id))),
        source := some "local_corpus" }
      let uid := strOf r.uniq_id
      let rc :=
        if uid ≠ "" then
          let pc := getProductUrlSt rows uid c
          (attachUrlStrip pc.1 r, pc.2)
        else
          ({ r with url := none }, c)
      let r := rc.1
      (some (if r.doc_id.isNone then { r with doc_id := some (strOf pd.doc_id) } else r), rc.2)
    | none => (some r, c)
  else if source = "web_search" ∨ (strTruthy r.url ∧ ¬ strTruthy r.uniq_id) then
    match lookupByTitle webL (strOf r.title) with
    | some wd =>
      (some { r with url := some (pyOr r.url (strOf wd.url)),
                     source := some "web_search", uniq_id := none, doc_id := none }, c)
    | none => (some r, c)
  else
    (none, c)

/-- Function `fallbackConcat` with the stateful URL lookup. -/
def fallbackConcatSt (rows : List CsvRow) (privL webL : List Record) (c : UrlCache) :
    List Record × UrlCache :=
  let fixed := mapSt (localCopyFixSt rows · ·) (privL.take 5) c
  (fixed.1 ++ (webL.take 3).map stampWeb, fixed.2)

/-- The collaborator responses of a stateful invocation: as `RetEnv` but
with the CSV rows in place of an already-loaded table. -/
structure RetEnvSt where
  ragResp : Option FetchResp := none
  webResp : Option FetchResp := none
  rows : List CsvRow := []
  reconcileResp : Option ReconcileOut := none
deriving Repr, DecidableEq

/-- The stateless environment a stateful one denotes: the lookup table the
first cache miss loads from the CSV. -/
def pureEnv (e : RetEnvSt) : RetEnv :=
  { ragResp := e.ragResp, webResp := e.webResp,
    urlTable := loadProductUrlLookup e.rows, reconcileResp := e.reconcileResp }

/-- Function `reconcileAndCombine` with the stateful URL lookup. -/
def reconcileAndCombineSt (e : RetEnvSt) (stampedPriv stampedWeb : Option FetchResp)
    (c : UrlCache) : (Bool × Except String RetrievalResults) × UrlCache :=
  let step : (Option FetchResp × List String × List String × Bool) × UrlCache :=
    match stampedPriv, stampedWeb with
    | some p, some w =>
      match e.reconcileResp with
      | none => ((some p, [], [], true), c)
      | some rc =>
        let cl := filterMapSt (cleanupRecordSt e.rows p.results w.results) rc.reconciled_results c
        let cleaned :=
          if cl.1.isEmpty then fallbackConcatSt e.rows p.results w.results cl.2
          else cl
        ((some { query := p.query, results := cleaned.1 },
          rc.conflicts, rc.recommendations, true), cleaned.2)
    | _, _ => ((stampedPriv, [], [], false), c)
  let reconciled := step.1.1
  let conflicts := step.1.2.1
  let recommendations := step.1.2.2.1
  let reconcileCalled := step.1.2.2.2
  let c := step.2
  match reconciled with
  | some f =>
    ((reconcileCalled, .ok { query := f.query, results := f.results,
                             conflicts := conflicts, recommendations := recommendations }), c)
  | none =>
    let pp : List Record × UrlCache := match stampedPriv with
      | some p => if p.results.isEmpty then ([], c)
                  else mapSt (localCopyFixSt e.rows · ·) p.results c
      | none => ([], c)
    let webPart := match stampedWeb with
      | some w => if w.results.isEmpty then [] else w.results.map stampWeb
      | none => []
    match stampedPriv with
    | some p =>
      ((reconcileCalled, .ok { query := p.query, results := pp.1 ++ webPart,
                               conflicts := conflicts, recommendations := recommendations }), pp.2)
    | none =>
      match stampedWeb with
      | some w =>
        ((reconcileCalled, .ok { query := w.query, results := pp.1 ++ webPart,
                                 conflicts := conflicts, recommendations := recommendations }), pp.2)
      | none =>
        ((reconcileCalled,
          .error "AttributeError: NoneType object has no attribute get"), pp.2)

/-- The body of `retriever_node` with the module URL cache threaded explicitly. -/
def retrieverNodeSt (plan : Plan) (e : RetEnvSt) (c : UrlCache) :
    (RetTrace × Except String RetrievalResults) × UrlCache :=
  let ragCalled := plan.sources.contains "private"
  let priv0 := if ragCalled then e.ragResp else none
  let sp : Option FetchResp × UrlCache := match priv0 with
    | some p =>
      let m := mapSt (stampLocalSt e.rows · ·) p.results c
      (some { p with results := m.1 }, m.2)
    | none => (none, c)
  let stampedPriv := sp.1
  let webCalled := plan.sources.contains "live"
  let web0 := if webCalled then e.webResp else none
  let stampedWeb := web0.map (fun w => { w with results := w.results.map stampWeb })
  let rc := reconcileAndCombineSt e stampedPriv stampedWeb sp.2
  (({ ragCalled := ragCalled, webCalled := webCalled, reconcileCalled := rc.1.1 }, rc.1.2), rc.2)

/-! ## The cache does not influence results -/

theorem mapSt_spec {α β σ : Type _} (f : α → σ → β × σ) (g : α → β) (inv : σ → Prop)
    (hf : ∀ a c, inv c → (f a c).1 = g a ∧ inv (f a c).2) :
    ∀ (l : List α) (c : σ), inv c → (mapSt f l c).1 = l.map g ∧ inv (mapSt f l c).2 := by
  intro l
  induction l with
  | nil => intro c h; simpa [mapSt] using h
  | cons a l ih =>
    intro c h
    obtain ⟨h1, h2⟩ := hf a c h
    obtain ⟨h3, h4⟩ := ih (f a c).2 h2
    simp [mapSt, h1, h3, h4]

theorem filterMapSt_spec {α β σ : Type _} (f : α → σ → Option β × σ) (g : α → Option β)
    (inv : σ → Prop)
    (hf : ∀ a c, inv c → (f a c).1 = g a ∧ inv (f a c).2) :
    ∀ (l : List α) (c : σ), inv c →
      (filterMapSt f l c).1 = l.filterMap g ∧ inv (filterMapSt f l c).2 := by
  intro l
  induction l with
  | nil => intro c h; simpa [filterMapSt] using h
  | cons a l ih =>
    intro c h
    obtain ⟨h1, h2⟩ := hf a c h
    obtain ⟨h3, h4⟩ := ih (f a c).2 h2
    refine ⟨?_, by simpa [filterMapSt] using h4⟩
    simp only [filterMapSt, List.filterMap, h1, h3]
    cases g a <;> rfl

theorem stampLocalSt_spec (rows : List CsvRow) (r : Record) (c : UrlCache)
    (h : CacheInv rows c) :
    (stampLocalSt rows r c).1 = stampLocal (loadProductUrlLookup rows) r ∧
    CacheInv rows (stampLocalSt rows r c).2 := by
  simp only [stampLocalSt, stampLocal]
  split_ifs with h1 h2 h2 <;>
    simp_all [getProductUrlSt_fst rows _ c h, getProductUrlSt_inv rows _ c h]

theorem localCopyFixSt_spec (rows : List CsvRow) (r : Record) (c : UrlCache)
    (h : CacheInv rows c) :
    (localCopyFixSt rows r c).1 = localCopyFix (loadProductUrlLookup rows) r ∧
    CacheInv rows (localCopyFixSt rows r c).2 := by
  simp only [localCopyFixSt, localCopyFix]
  split_ifs with h1 <;>
    simp_all [getProductUrlSt_fst rows _ c h, getProductUrlSt_inv rows _ c h]

theorem cleanupRecordSt_spec (rows : List CsvRow) (privL webL : List Record)
    (r : Record) (c : UrlCache) (h : CacheInv rows c) :
    (cleanupRecordSt rows privL webL r c).1 =
      cleanupRecord (loadProductUrlLookup rows) privL webL r ∧
    CacheInv rows (cleanupRecordSt rows privL webL r c).2 := by
  simp only [cleanupRecordSt, cleanupRecord]
  split_ifs with h1 h2
  · cases hlt : lookupByTitle privL (strOf r.title) with
    | none => simpa using h
    | some pd =>
      simp only []
      split_ifs with h3 <;>
        simp_all [getProductUrlSt_fst rows _ c h, getProductUrlSt_inv rows _ c h]
  · cases hlt : lookupByTitle webL (strOf r.title) with
    | none => simpa using h
    | some wd => simpa using h
  · simpa using h

theorem fallbackConcatSt_spec (rows : List CsvRow) (privL webL : List Record)
    (c : UrlCache) (h : CacheInv rows c) :
    (fallbackConcatSt rows privL webL c).1 =
      fallbackConcat (loadProductUrlLookup rows) privL webL ∧
    CacheInv rows (fallbackConcatSt rows privL webL c).2 := by
  obtain ⟨h1, h2⟩ := mapSt_spec (localCopyFixSt rows · ·)
    (localCopyFix (loadProductUrlLookup rows)) (CacheInv rows)
    (fun a c h => localCopyFixSt_spec rows a c h) (privL.take 5) c h
  exact ⟨by simp [fallbackConcatSt, fallbackConcat, h1], by simpa [fallbackConcatSt] using h2⟩

theorem reconcileAndCombineSt_spec (e : RetEnvSt) (sp sw : Option FetchResp)
    (c : UrlCache) (h : CacheInv e.rows c) :
    (reconcileAndCombineSt e sp sw c).1 = reconcileAndCombine (pureEnv e) sp sw ∧
    CacheInv e.rows (reconcileAndCombineSt e sp sw c).2 := by
  cases sp with
  | none =>
    cases sw with
    | none => exact ⟨rfl, h⟩
    | some w => exact ⟨rfl, h⟩
  | some p =>
    cases sw with
    | none => exact ⟨rfl, h⟩
    | some w =>
      cases hrc : e.reconcileResp with
      | none =>
        refine ⟨?_, by simp [reconcileAndCombineSt, hrc, h]⟩
        simp [reconcileAndCombineSt, reconcileAndCombine, pureEnv, hrc]
      | some rc =>
        obtain ⟨h1, h2⟩ := filterMapSt_spec (cleanupRecordSt e.rows p.results w.results)
          (cleanupRecord (loadProductUrlLookup e.rows) p.results w.results) (CacheInv e.rows)
          (fun a c h => cleanupRecordSt_spec e.rows p.results w.results a c h)
          rc.reconciled_results c h
        by_cases hemp :
            (rc.reconciled_results.filterMap
              (cleanupRecord (loadProductUrlLookup e.rows) p.results w.results)).isEmpty
        · obtain ⟨h3, h4⟩ := fallbackConcatSt_spec e.rows p.results w.results
            (filterMapSt (cleanupRecordSt e.rows p.results w.results) rc.reconciled_results c).2 h2
          refine ⟨?_, ?_⟩
          · simp [reconcileAndCombineSt, reconcileAndCombine, pureEnv, hrc, h1, hemp, h3]
          · simp [reconcileAndCombineSt, hrc, h1, hemp, h4]
        · refine ⟨?_, ?_⟩
          · simp [reconcileAndCombineSt, reconcileAndCombine, pureEnv, hrc, h1, hemp]
          · simp [reconcileAndCombineSt, hrc, h1, hemp, h2]

theorem retrieverNodeSt_spec (plan : Plan) (e : RetEnvSt) (c : UrlCache)
    (h : CacheInv e.rows c) :
    (retrieverNodeSt plan e c).1 = retrieverNode plan (pureEnv e) ∧
    CacheInv e.rows (retrieverNodeSt plan e c).2 := by
  cases hp : (if plan.sources.contains "private" then e.ragResp else none) with
  | none =>
    obtain ⟨h1, h2⟩ := reconcileAndCombineSt_spec e none
      ((if plan.sources.contains "live" then e.webResp else none).map
        (fun w => { w with results := w.results.map stampWeb })) c h
    simp only [pureEnv] at h1
    refine ⟨?_, ?_⟩
    · simp only [retrieverNodeSt, retrieverNode, pureEnv, hp, Option.map_none']
      rw [h1]
    · simp only [retrieverNodeSt, hp]
      exact h2
  | some p =>
    obtain ⟨hm1, hm2⟩ := mapSt_spec (stampLocalSt e.rows · ·)
      (stampLocal (loadProductUrlLookup e.rows)) (CacheInv e.rows)
      (fun a c h => stampLocalSt_spec e.rows a c h) p.results c h
    obtain ⟨h1, h2⟩ := reconcileAndCombineSt_spec e
      (some { p with results := (mapSt (stampLocalSt e.rows · ·) p.results c).1 })
      ((if plan.sources.contains "live" then e.webResp else none).map
        (fun w => { w with results := w.results.map stampWeb }))
      (mapSt (stampLocalSt e.rows · ·) p.results c).2 hm2
    simp only [pureEnv] at h1
    refine ⟨?_, ?_⟩
    · simp only [retrieverNodeSt, retrieverNode, pureEnv, hp, Option.map_some']
      rw [h1, hm1]
    · simp only [retrieverNodeSt, hp]
      exact h2

/-! ## Claims about the catalog metadata filters -/

theorem priceViolates_iff (maxP minP : Option ℚ) (c : Candidate) :
    priceViolates maxP minP c = true ↔
      ∃ v, parsedPrice c.meta.price = some v ∧
        ((∃ m, maxP = some m ∧ v.gtB m) ∨ (∃ m, minP = some m ∧ v.ltB m)) := by
  unfold priceViolates
  cases hpp : parsedPrice c.meta.price with
  | none => simp
  | some v => cases maxP <;> cases minP <;> simp

theorem singleton_keep_iff (f : Filters) (c : Candidate) :
    applyMetadataFilters f [c] = [c] ↔
      (passBrand f.brand c ∧ passCategory f.category c ∧
       priceViolates f.max_price f.min_price c = false ∧ passMust f.must_contain c) := by
  simp only [applyMetadataFilters]
  by_cases hb : passBrand f.brand c <;>
    by_cases hc : passCategory f.category c <;>
      by_cases hp : priceViolates f.max_price f.min_price c <;>
        by_cases hm : passMust f.must_contain c <;>
          simp [hb, hc, hp, hm]

/-- C6: with only price bounds given, the metadata filter excludes a
candidate exactly when its `price` field parses (through Python `float`)
to a value on which a given bound's comparison is true; a candidate whose
price is empty or unparseable is never excluded by a price bound, and the
filter is a total function on any price string. -/
theorem price_filter_excludes_iff_numeric_violation (maxP minP : Option ℚ) (c : Candidate) :
    (applyMetadataFilters { max_price := maxP, min_price := minP } [c] = [c] ↔
      ¬ ∃ v, parsedPrice c.meta.price = some v ∧
        ((∃ m, maxP = some m ∧ v.gtB m) ∨ (∃ m, minP = some m ∧ v.ltB m))) ∧
    (parsedPrice c.meta.price = none →
      applyMetadataFilters { max_price := maxP, min_price := minP } [c] = [c]) := by
  have hk := singleton_keep_iff { max_price := maxP, min_price := minP } c
  have hv := priceViolates_iff maxP minP c
  constructor
  · rw [hk]
    simp only [passBrand, passCategory, passMust]
    rw [← hv]
    simp [Bool.not_eq_true]
  · intro hnone
    rw [hk]
    simp only [passBrand, passCategory, passMust]
    refine ⟨trivial, trivial, ?_, trivial⟩
    simp [priceViolates, hnone]

/-- A candidate whose raw price string Python `float()` rejects. -/
def unparseablePriceCand : Candidate :=
  { doc := "steel cleaner",
    meta := { title := some "Cleaner", price := .unparseable "cheap!" } }

/-- Witness for the price-filter theorem: a candidate with the unparseable
price string survives a `max_price` bound. -/
theorem price_filter_excludes_iff_numeric_violation_witness :
    parsedPrice unparseablePriceCand.meta.price = none ∧
    applyMetadataFilters { max_price := some 20, min_price := none }
      [unparseablePriceCand] = [unparseablePriceCand] :=
  ⟨rfl, (price_filter_excludes_iff_numeric_violation (some 20) none unparseablePriceCand).2 rfl⟩

/-- A candidate whose structured brand field does not contain the filter
string but whose title does: the source keeps it, refuting the claim that
the brand filter matches only the structured brand field. -/
def brandCounterCand : Candidate :=
  { doc := "", meta := { brand := some "ZetaCorp", title := some "Acme Cleaner" } }

/-- C7 counterexample: the record passes the brand filter `"acme"` although
`"acme"` is not a case-insensitive substring of its structured brand field
`"ZetaCorp"` — the filter also matches the title and the raw document
text. -/
theorem brand_filter_not_restricted_to_brand_field :
    applyMetadataFilters { brand := some "acme" } [brandCounterCand] = [brandCounterCand] ∧
    lcontains (strOf brandCounterCand.meta.brand) "acme" = false := by
  constructor <;> decide

/-- C7 amended: a non-empty brand filter passes a record iff the filter is a
case-insensitive substring of the structured brand field, of the title, or
of the raw document text; the category and must-contain filters are
case-insensitive substring matches on the category field and the document
text respectively. -/
theorem brand_category_must_filters_iff (b g m : String) (c : Candidate)
    (hb : b ≠ "") (hg : g ≠ "") (hm : m ≠ "") :
    (applyMetadataFilters { brand := some b } [c] = [c] ↔
      (lcontains (strOf c.meta.brand) b ∨ lcontains (strOf c.meta.title) b ∨
        lcontains c.doc b)) ∧
    (applyMetadataFilters { category := some g } [c] = [c] ↔
      lcontains (strOf c.meta.category) g) ∧
    (applyMetadataFilters { must_contain := some m } [c] = [c] ↔ lcontains c.doc m) := by
  have hdoc : (if c.doc ≠ "" then c.doc else "") = c.doc := by
    by_cases h : c.doc = "" <;> simp [h]
  have hpv : priceViolates none none c = false := by
    unfold priceViolates
    cases parsedPrice c.meta.price <;> rfl
  refine ⟨?_, ?_, ?_⟩
  · rw [singleton_keep_iff]
    simp [passBrand, passCategory, passMust, hpv, brandFound, hb, hdoc, or_assoc]
  · rw [singleton_keep_iff]
    simp [passBrand, passCategory, passMust, hpv, hg]
  · rw [singleton_keep_iff]
    simp [passBrand, passCategory, passMust, hpv, hm]

/-- A concrete candidate whose brand, category and document text contain the
respective filter strings. -/
def candW : Candidate :=
  { doc := "An eco-friendly spray",
    meta := { brand := some "CleanCo", title := some "Steel Cleaner",
              category := some "Household Cleaning" } }

/-- Witness for the amended brand/category/must-contain filter theorem at
concrete non-empty filters. -/
theorem brand_category_must_filters_iff_witness :
    ("clean" ≠ "" ∧ "household" ≠ "" ∧ "eco" ≠ "") ∧
    ((applyMetadataFilters { brand := some "clean" } [candW] = [candW] ↔
      (lcontains (strOf candW.meta.brand) "clean" ∨
        lcontains (strOf candW.meta.title) "clean" ∨ lcontains candW.doc "clean")) ∧
     (applyMetadataFilters { category := some "household" } [candW] = [candW] ↔
      lcontains (strOf candW.meta.category) "household") ∧
     (applyMetadataFilters { must_contain := some "eco" } [candW] = [candW] ↔
      lcontains candW.doc "eco")) :=
  ⟨⟨by decide, by decide, by decide⟩,
   brand_category_must_filters_iff "clean" "household" "eco" candW
     (by decide) (by decide) (by decide)⟩

/-! ## Claims about the retriever -/

/-- A plan requesting both sources. -/
def planBoth : Plan := { sources := ["private", "live"] }

/-- The scenario-B catalog record. -/
def catRecEco : Record := { title := some "EcoClean X", uniq_id := some "u1" }

/-- The scenario-B web record. -/
def webRecEco : Record := { title := some "EcoClean X", url := some "http://x" }

/-- A record the reconciliation LLM fabricated: tagged catalog-origin but
with a title matching no original record, and carrying both a `uniq_id` and
a foreign `url`. -/
def llmBothIds : Record :=
  { title := some "Mystery", source := some "local_corpus",
    uniq_id := some "u9", url := some "http://evil" }

/-- The environment in which the reconciliation service returns only
`llmBothIds`. -/
def envBothIds : RetEnv :=
  { ragResp := some { query := "q", results := [catRecEco] },
    webResp := some { query := "qw", results := [webRecEco] },
    urlTable := [],
    reconcileResp := some { reconciled_results := [llmBothIds] } }

/-- C1: refuted on the code — a reconciliation-service record tagged
`local_corpus` whose title matches no original record is emitted unchanged,
so the returned ReconciledResult contains a record carrying a truthy
`uniq_id` AND a truthy `url` that the out-of-band lookup did not derive
(the lookup returns nothing for it), violating the exactly-one-identity
guarantee. -/
theorem reconciled_record_carries_both_identities :
    (retrieverNode planBoth envBothIds).2 =
      Except.ok { query := "q", results := [llmBothIds],
                  conflicts := [], recommendations := [] } ∧
    strTruthy llmBothIds.uniq_id = true ∧ strTruthy llmBothIds.url = true ∧
    get_product_url envBothIds.urlTable (strOf llmBothIds.uniq_id) = none := by
  exact ⟨rfl, rfl, rfl, rfl⟩

/-- C3: refuted on the code — on a plan whose `sources` is empty the
retriever calls no collaborator, but instead of returning an empty result it
raises: both per-source responses are `None` and the final
`private_results.get("query", "") if private_results else
web_results.get("query", "")` dereferences `None`. -/
theorem empty_sources_plan_raises :
    (retrieverNode { sources := [] } {}).1 =
      { ragCalled := false, webCalled := false, reconcileCalled := false } ∧
    (retrieverNode { sources := [] } {}).2 =
      Except.error "AttributeError: NoneType object has no attribute get" :=
  ⟨rfl, rfl⟩

theorem stampWeb_stampWeb (r : Record) : stampWeb (stampWeb r) = stampWeb r := rfl

/-- C4: when both sources are requested and exactly one fetch fails (its
call returns `None`), the retriever still returns normally with the
validated records of the other source: a failed web fetch leaves the full
stamped catalog subset with empty conflicts, a failed catalog fetch yields
exactly the validated web records. -/
theorem single_source_failure_degrades (plan : Plan) (env : RetEnv) (p w : FetchResp)
    (hpriv : plan.sources.contains "private" = true)
    (hlive : plan.sources.contains "live" = true) :
    (env.ragResp = some p → env.webResp = none →
      (retrieverNode plan env).2 = Except.ok
        { query := p.query, results := p.results.map (stampLocal env.urlTable),
          conflicts := [], recommendations := [] }) ∧
    (env.ragResp = none → env.webResp = some w →
      (retrieverNode plan env).2 = Except.ok
        { query := w.query, results := w.results.map stampWeb,
          conflicts := [], recommendations := [] }) := by
  constructor
  · intro h1 h2
    simp only [retrieverNode, reconcileAndCombine, hpriv, hlive, if_true, h1, h2,
      Option.map_some', Option.map_none']
  · intro h1 h2
    simp only [retrieverNode, reconcileAndCombine, hpriv, hlive, if_true, h1, h2,
      Option.map_some', Option.map_none']
    cases hwr : w.results with
    | nil => simp
    | cons a l =>
      simp [List.map_map, Function.comp_def, stampWeb_stampWeb]

/-- Witness for the degradation theorem: both directions applied at concrete
plans and environments. -/
theorem single_source_failure_degrades_witness :
    (planBoth.sources.contains "private" = true ∧
     planBoth.sources.contains "live" = true) ∧
    (retrieverNode planBoth
        { ragResp := some { query := "q", results := [catRecEco] }, webResp := none }).2 =
      Except.ok { query := "q", results := [catRecEco].map (stampLocal []),
                  conflicts := [], recommendations := [] } ∧
    (retrieverNode planBoth
        { ragResp := none, webResp := some { query := "qw", results := [webRecEco] } }).2 =
      Except.ok { query := "qw", results := [webRecEco].map stampWeb,
                  conflicts := [], recommendations := [] } :=
  ⟨⟨rfl, rfl⟩,
   (single_source_failure_degrades planBoth
      { ragResp := some { query := "q", results := [catRecEco] }, webResp := none }
      { query := "q", results := [catRecEco] } {} rfl rfl).1 rfl rfl,
   (single_source_failure_degrades planBoth
      { ragResp := none, webResp := some { query := "qw", results := [webRecEco] } }
      {} { query := "qw", results := [webRecEco] } rfl rfl).2 rfl rfl⟩

/-- Scenario B with the reconciliation service unavailable. -/
def envScenarioB : RetEnv :=
  { ragResp := some { query := "q", results := [catRecEco] },
    webResp := some { query := "qw", results := [webRecEco] },
    urlTable := [], reconcileResp := none }

/-- C5 counterexample: in scenario B with the reconciliation service
unavailable the code returns only the validated catalog record — one record,
not the claimed two-record concatenation; the web record is dropped. -/
theorem scenarioB_unavailable_returns_one_record :
    (retrieverNode planBoth envScenarioB).2 =
      Except.ok { query := "q",
                  results := [{ title := some "EcoClean X", uniq_id := some "u1",
                                source := some "local_corpus" }],
                  conflicts := [], recommendations := [] } ∧
    Except.map (fun r => r.results.length) (retrieverNode planBoth envScenarioB).2 =
      Except.ok 1 :=
  ⟨rfl, rfl⟩

/-- C5 amended: the fallback concatenation (catalog first capped at 5, then
web capped at 3) is produced only when the reconciliation call *returned*
and its whole output was dropped by the origin-classification cleanup; when
the reconciliation service is unavailable (raises), the code instead falls
back to the validated catalog records alone, with empty conflict and
recommendation sets — so scenario B yields one record, not two. -/
theorem degenerate_merge_vs_unavailable (plan : Plan) (env : RetEnv)
    (p w : FetchResp) (rc : ReconcileOut)
    (hpriv : plan.sources.contains "private" = true)
    (hlive : plan.sources.contains "live" = true)
    (hp : env.ragResp = some p) (hw : env.webResp = some w) :
    (env.reconcileResp = some rc →
      rc.reconciled_results.filterMap
        (cleanupRecord env.urlTable (p.results.map (stampLocal env.urlTable))
          (w.results.map stampWeb)) = [] →
      (retrieverNode plan env).2 = Except.ok
        { query := p.query,
          results := fallbackConcat env.urlTable
            (p.results.map (stampLocal env.urlTable)) (w.results.map stampWeb),
          conflicts := rc.conflicts, recommendations := rc.recommendations }) ∧
    (env.reconcileResp = none →
      (retrieverNode plan env).2 = Except.ok
        { query := p.query, results := p.results.map (stampLocal env.urlTable),
          conflicts := [], recommendations := [] }) := by
  constructor
  · intro hrc hclean
    simp only [retrieverNode, reconcileAndCombine, hpriv, hlive, if_true, hp, hw,
      Option.map_some', hrc, hclean, List.isEmpty_nil, if_true]
  · intro hrc
    simp only [retrieverNode, reconcileAndCombine, hpriv, hlive, if_true, hp, hw,
      Option.map_some', hrc]

/-- Witness for the amended degenerate-merge theorem: both branches applied
at scenario-B-like environments — an unclassifiable reconciliation output
triggers the concatenation, an unavailable service returns catalog only. -/
theorem degenerate_merge_vs_unavailable_witness :
    (planBoth.sources.contains "private" = true ∧
     planBoth.sources.contains "live" = true ∧
     ([{ title := some "junk" }] : List Record).filterMap
        (cleanupRecord [] ([catRecEco].map (stampLocal [])) ([webRecEco].map stampWeb)) = []) ∧
    (retrieverNode planBoth
        { envScenarioB with
          reconcileResp := some { reconciled_results := [{ title := some "junk" }] } }).2 =
      Except.ok { query := "q",
                  results := fallbackConcat [] ([catRecEco].map (stampLocal []))
                    ([webRecEco].map stampWeb),
                  conflicts := [], recommendations := [] } ∧
    (retrieverNode planBoth envScenarioB).2 =
      Except.ok { query := "q", results := [catRecEco].map (stampLocal []),
                  conflicts := [], recommendations := [] } :=
  ⟨⟨rfl, rfl, rfl⟩,
   (degenerate_merge_vs_unavailable planBoth
      { envScenarioB with
        reconcileResp := some { reconciled_results := [{ title := some "junk" }] } }
      { query := "q", results := [catRecEco] } { query := "qw", results := [webRecEco] }
      { reconciled_results := [{ title := some "junk" }] }
      rfl rfl rfl rfl).1 rfl rfl,
   (degenerate_merge_vs_unavailable planBoth envScenarioB
      { query := "q", results := [catRecEco] } { query := "qw", results := [webRecEco] }
      {} rfl rfl rfl rfl).2 rfl⟩

/-- C8: two successive invocations of the retriever with the same plan and
the same collaborator responses — the second starting from whatever state
the first left in the module-wide URL-lookup cache — produce identical
traces and identical results (records, order, conflicts, recommendations):
the retriever is a deterministic function of its inputs with no effective
cross-invocation state. -/
theorem retriever_invocations_idempotent (plan : Plan) (e : RetEnvSt) :
    (retrieverNodeSt plan e ((retrieverNodeSt plan e none).2)).1 =
      (retrieverNodeSt plan e none).1 := by
  have h1 := retrieverNodeSt_spec plan e none (Or.inl rfl)
  have h2 := retrieverNodeSt_spec plan e (retrieverNodeSt plan e none).2 h1.2
  rw [h1.1, h2.1]

/-! ## Claims about the pipeline controller -/

theorem runFrom_step (env : PipeEnv) (fuel : Nat) (n : Node) (s s' : GraphState)
    (hn : n ≠ Node.endG) (happ : applyNode env n s = .ok s') :
    runFrom env (fuel + 1) n s =
      (n :: (runFrom env fuel (succNode n s') s').1,
       (runFrom env fuel (succNode n s') s').2) := by
  cases n <;> simp_all [runFrom]

theorem runFrom_fail (env : PipeEnv) (fuel : Nat) (n : Node) (s : GraphState) (e : String)
    (hn : n ≠ Node.endG) (happ : applyNode env n s = .error e) :
    runFrom env (fuel + 1) n s = ([n], .error e) := by
  cases n <;> simp_all [runFrom]

theorem runFrom_end (env : PipeEnv) (fuel : Nat) (s : GraphState) :
    runFrom env (fuel + 1) Node.endG s = ([], .ok s) := by
  simp [runFrom]

/-- C2: whenever the router output carries `route = "unsafe"`, the run
visits exactly the router and the safety-response node: it returns the fixed
crisis-resource message and the planner, retriever and answerer nodes are
never invoked. -/
theorem unsafe_route_short_circuits (env : PipeEnv) (input : String)
    (h : (routerNode env.classifier input).route = "unsafe") :
    (runPipeline env input).1 = [Node.router, Node.safety_response] ∧
    Node.planner ∉ (runPipeline env input).1 ∧
    Node.retriever ∉ (runPipeline env input).1 ∧
    Node.answerer ∉ (runPipeline env input).1 ∧
    ∃ s, (runPipeline env input).2 = Except.ok s ∧
      s.final_answer = some safetyMessage := by
  have hsucc : succNode Node.router
      { user_input := input, router := some (routerNode env.classifier input) } =
      Node.safety_response := by
    simp [succNode, shouldRouteToSafety, h]
  have hrun : runPipeline env input = ([Node.router, Node.safety_response],
      Except.ok { user_input := input,
                  router := some (routerNode env.classifier input),
                  final_answer := some safetyMessage }) := by
    rw [runPipeline, show (10 : Nat) = 9 + 1 from rfl,
      runFrom_step env 9 Node.router { user_input := input }
        { user_input := input, router := some (routerNode env.classifier input) }
        (by simp) rfl,
      hsucc, show (9 : Nat) = 8 + 1 from rfl,
      runFrom_step env 8 Node.safety_response
        { user_input := input, router := some (routerNode env.classifier input) }
        { user_input := input, router := some (routerNode env.classifier input),
          final_answer := some safetyMessage }
        (by simp) rfl,
      show succNode Node.safety_response
        { user_input := input, router := some (routerNode env.classifier input),
          final_answer := some safetyMessage } = Node.endG from rfl,
      show (8 : Nat) = 7 + 1 from rfl, runFrom_end]
  rw [hrun]
  exact ⟨rfl, by simp, by simp, by simp,
    ⟨_, rfl, rfl⟩⟩

/-- A concrete classifier response flagging the input unsafe. -/
def unsafeEnvW : PipeEnv :=
  { classifier := some { route := some "unsafe", safety_flags := some ["self-harm"] } }

/-- Witness for the safety short-circuit at a concrete classifier response
flagging the input unsafe. -/
theorem unsafe_route_short_circuits_witness :
    (routerNode unsafeEnvW.classifier "weapons for self harm").route = "unsafe" ∧
    ((runPipeline unsafeEnvW "weapons for self harm").1 =
      [Node.router, Node.safety_response] ∧
     Node.planner ∉ (runPipeline unsafeEnvW "weapons for self harm").1 ∧
     Node.retriever ∉ (runPipeline unsafeEnvW "weapons for self harm").1 ∧
     Node.answerer ∉ (runPipeline unsafeEnvW "weapons for self harm").1 ∧
     ∃ s, (runPipeline unsafeEnvW "weapons for self harm").2 = Except.ok s ∧
       s.final_answer = some safetyMessage) :=
  ⟨rfl, unsafe_route_short_circuits unsafeEnvW "weapons for self harm" rfl⟩

theorem run_visits_planner_retriever (env : PipeEnv) (input : String)
    (h : (routerNode env.classifier input).route ≠ "unsafe") :
    Node.planner ∈ (runPipeline env input).1 ∧
    Node.retriever ∈ (runPipeline env input).1 := by
  have hsucc1 : succNode Node.router
      { user_input := input, router := some (routerNode env.classifier input) } =
      Node.planner := by
    simp [succNode, shouldRouteToSafety, h]
  rw [runPipeline, show (10 : Nat) = 9 + 1 from rfl,
    runFrom_step env 9 Node.router { user_input := input }
      { user_input := input, router := some (routerNode env.classifier input) }
      (by simp) rfl,
    hsucc1, show (9 : Nat) = 8 + 1 from rfl,
    runFrom_step env 8 Node.planner
      { user_input := input, router := some (routerNode env.classifier input) }
      { user_input := input, router := some (routerNode env.classifier input),
        planner := some (plannerNode env.plannerLLM (routerNode env.classifier input)) }
      (by simp) rfl,
    show succNode Node.planner
      { user_input := input, router := some (routerNode env.classifier input),
        planner := some (plannerNode env.plannerLLM (routerNode env.classifier input)) } =
      Node.retriever from rfl,
    show (8 : Nat) = 7 + 1 from rfl]
  cases hres : (retrieverNode (resolvePlan
      { user_input := input, router := some (routerNode env.classifier input),
        planner := some (plannerNode env.plannerLLM (routerNode env.classifier input)) })
      env.ret).2 with
  | error e =>
    rw [runFrom_fail env 7 Node.retriever _ e (by simp) (by simp [applyNode, hres])]
    simp
  | ok r =>
    rw [runFrom_step env 7 Node.retriever _
      { user_input := input, router := some (routerNode env.classifier input),
        planner := some (plannerNode env.plannerLLM (routerNode env.classifier input)),
        retriever := some r }
      (by simp) (by simp [applyNode, hres])]
    simp

/-- C9: when the intent-classifier invocation fails, the controller
substitutes the default intent — route `"general"`, the raw user text as
extracted query, empty task, constraints and safety flags — the failure does
not propagate, and the run proceeds to the planner and the retriever as for
any non-unsafe route. -/
theorem classifier_failure_uses_default (env : PipeEnv) (input : String)
    (h : env.classifier = none) :
    routerNode env.classifier input =
      { route := "general", extracted_query := input, task := "",
        constraints := {}, safety_flags := [] } ∧
    Node.planner ∈ (runPipeline env input).1 ∧
    Node.retriever ∈ (runPipeline env input).1 := by
  have hr : routerNode env.classifier input =
      { route := "general", extracted_query := input, task := "",
        constraints := {}, safety_flags := [] } := by
    rw [h]
    unfold routerNode
    by_cases hi : input = ""
    · rw [hi]
      rfl
    · simp [hi]
  have hmem := run_visits_planner_retriever env input (by rw [hr]; simp)
  exact ⟨hr, hmem.1, hmem.2⟩

/-- The pipeline environment in which every collaborator call fails. -/
def allFailEnvW : PipeEnv := { classifier := none }

/-- Witness for the classifier-failure default at a concrete input. -/
theorem classifier_failure_uses_default_witness :
    allFailEnvW.classifier = none ∧
    (routerNode allFailEnvW.classifier "find soap" =
      { route := "general", extracted_query := "find soap", task := "",
        constraints := {}, safety_flags := [] } ∧
     Node.planner ∈ (runPipeline allFailEnvW "find soap").1 ∧
     Node.retriever ∈ (runPipeline allFailEnvW "find soap").1) :=
  ⟨rfl, classifier_failure_uses_default allFailEnvW "find soap" rfl⟩

/-- C10: with non-empty retrieval results, a non-empty `safety_flags` set on
the router output makes the answerer return the refusal naming the flags —
whatever the route and the LLM outcome — with no citations, web URLs or
grounding verdict; with empty retrieval results the no-products message
takes precedence over the flag refusal. -/
theorem safety_flags_refusal_and_empty_precedence (llm : Option AnswerLLM)
    (rr : RetrievalResults) (router : RouterOut) :
    (rr.results ≠ [] → router.safety_flags ≠ [] →
      answererNode llm (some rr) (some router) =
        { final_answer := refusalMsg router.safety_flags,
          citations := none, web_urls := none, grounded := none }) ∧
    (rr.results = [] →
      answererNode llm (some rr) (some router) =
        { final_answer := noProductsMsg,
          citations := none, web_urls := none, grounded := none }) := by
  constructor
  · intro h1 h2
    unfold answererNode
    cases hres : rr.results with
    | nil => exact absurd hres h1
    | cons a l => simp [hres, h2]
  · intro h1
    unfold answererNode
    simp [h1]

/-- Witness for the flag refusal: a concrete non-empty result set with two
safety flags yields the refusal naming both. -/
theorem safety_flags_refusal_witness :
    (({ results := [{ title := some "T", uniq_id := some "u" }] } :
        RetrievalResults).results ≠ [] ∧
     ({ safety_flags := ["weapons", "drugs"] } : RouterOut).safety_flags ≠ []) ∧
    answererNode none (some { results := [{ title := some "T", uniq_id := some "u" }] })
        (some { safety_flags := ["weapons", "drugs"] }) =
      { final_answer := refusalMsg ["weapons", "drugs"],
        citations := none, web_urls := none, grounded := none } :=
  ⟨⟨by decide, by decide⟩,
   (safety_flags_refusal_and_empty_precedence none
      { results := [{ title := some "T", uniq_id := some "u" }] }
      { safety_flags := ["weapons", "drugs"] }).1 (by decide) (by decide)⟩

end VRag
